import Mathlib

/-!
Shallow embedding of `standalone/headers-cache/src/grab.rs` from the
phala-blockchain repository: the incremental multi-stream crawler and its
verify/repair engine.  Pure Rust control flow is translated into Lean
functions; the store, chain RPC and fallible writes are modelled as explicit
state passing over executable structures.  Machine integers (`u32`
`BlockNumber`) are modelled as `Nat`; the only place the `u32` range matters
is the `u32::MAX` sentinel of the two atomics, kept as the explicit constant
`u32Max`.
-/

namespace HeadersCache

/-- Block numbers (`u32` in the source). -/
abbrev BlockNumber := Nat

/-- The `u32::MAX` sentinel used by the `GENESIS` and `LATEST_JUSTFICATION`
atomics (`AtomicU32::new(u32::MAX)`, grab.rs lines 257-258). -/
def u32Max : Nat := 2 ^ 32 - 1

/-- A decoded chain block header: `number`, `parent_hash`, plus one further
field (`state_root`) standing for the remaining fields that feed the header's
own hash. -/
structure Header where
  number : BlockNumber
  parentHash : Nat
  stateRoot : Nat
deriving DecidableEq

/-- The header's own hash.  The source computes a cryptographic hash of the
encoded header; the embedding only needs a computable function determined by
(and injective in) the header's fields, so we use the `Nat` pairing
function. -/
def Header.hash (h : Header) : Nat :=
  Nat.pair h.number (Nat.pair h.parentHash h.stateRoot)

/-- Stored bytes for a header record.  The spec leaves the binary encoding
out of scope and only requires that encode/decode round-trip and that decode
failures are distinguishable, so bytes are either a well-formed encoding of a
header or garbage. -/
inductive Bytes where
  | good (h : Header)
  | bad (id : Nat)
deriving DecidableEq

/-- `grab_headers` items: a header plus whether a justification is attached
(`info.justification.is_some()` is all the crawler inspects). -/
structure BlockInfo where
  header : Header
  justification : Bool
deriving DecidableEq

/-- `BlockHeaderWithChanges`-style item of `grab_storage_changes`; the crawler
only reads `info.block_header.number`. -/
structure StorageInfo where
  block_header : Header
deriving DecidableEq

/-- Encoding of a `BlockInfo` as stored by `put_header`; `decode_header`
extracts the leading `Header`, which is all the verifier reads back. -/
def encodeInfo (info : BlockInfo) : Bytes := Bytes.good info.header

/-- Encoding of a bare header as stored by `put_para_header`. -/
def encodeHeader (h : Header) : Bytes := Bytes.good h

/-- `decode_header` (grab.rs lines 363-366): decode a `Header` from stored
bytes, with context message "Failed to decode header". -/
def decode_header (b : Bytes) : Except String Header :=
  match b with
  | .good h => .ok h
  | .bad _ => .error "Failed to decode header"

/-- `anyhow` context wrapping: a context string prepended to the underlying
error. -/
def ctx (c e : String) : String := c ++ ": " ++ e

/-- Per-stream cursor record (the `higest` / `checked` / `recent_imported`
fields of `Metadata`); `None` means "nothing yet". -/
structure Cursors where
  header : Option BlockNumber
  para_header : Option BlockNumber
  storage_changes : Option BlockNumber
deriving DecidableEq

/-- Modelled from the spec: the `Metadata` record of `crate::db` (the file
`db.rs` itself is not among the available sources; §3 of the spec describes
its fields: per-stream `highest`, `checked`, `recent_imported` cursors and
the set of bootstrapped genesis heights).  The source spells `highest` as
`higest`. -/
structure Metadata where
  higest : Cursors
  checked : Cursors
  recent_imported : Cursors
  genesis : List BlockNumber
deriving DecidableEq

/-- Modelled from the spec: `Metadata::default()`, the zero-valued record for
a first run. -/
def Metadata.init : Metadata :=
  { higest := ⟨none, none, none⟩
    checked := ⟨none, none, none⟩
    recent_imported := ⟨none, none, none⟩
    genesis := [] }

/-- Modelled from the spec: `metadata.update_header(n)` records `n` as the
highest relay header ingested. -/
def Metadata.update_header (m : Metadata) (n : BlockNumber) : Metadata :=
  { m with higest := { m.higest with header := some n } }

/-- Modelled from the spec: `metadata.update_para_header(n)`. -/
def Metadata.update_para_header (m : Metadata) (n : BlockNumber) : Metadata :=
  { m with higest := { m.higest with para_header := some n } }

/-- Modelled from the spec: `metadata.update_storage_changes(n)`. -/
def Metadata.update_storage_changes (m : Metadata) (n : BlockNumber) : Metadata :=
  { m with higest := { m.higest with storage_changes := some n } }

/-- Modelled from the spec: `metadata.put_genesis(h)` adds `h` to the set of
bootstrapped genesis heights (§4.4: set membership is the idempotence
guard). -/
def Metadata.put_genesis (m : Metadata) (h : BlockNumber) : Metadata :=
  if h ∈ m.genesis then m else { m with genesis := h :: m.genesis }

/-- Modelled from the spec: the store collaborator `CacheDB` (§6): four
tables keyed by block number plus the singleton `Metadata` slot.  Each table
maps a block number to the opaque encoded bytes last written there. -/
structure CacheDB where
  headers : BlockNumber → Option Bytes
  paraHeaders : BlockNumber → Option Bytes
  storageChanges : BlockNumber → Option StorageInfo
  genesisTable : BlockNumber → Option Nat
  metadataSlot : Option Metadata

/-- Pure store update for the headers table. -/
def putHeaderB (db : CacheDB) (n : BlockNumber) (b : Bytes) : CacheDB :=
  { db with headers := fun k => if k = n then some b else db.headers k }

/-- Pure store update for the para-headers table. -/
def putParaHeaderB (db : CacheDB) (n : BlockNumber) (b : Bytes) : CacheDB :=
  { db with paraHeaders := fun k => if k = n then some b else db.paraHeaders k }

/-- Pure store update for the storage-changes table. -/
def putStorageB (db : CacheDB) (n : BlockNumber) (v : StorageInfo) : CacheDB :=
  { db with storageChanges := fun k => if k = n then some v else db.storageChanges k }

/-- Pure store update for the genesis table. -/
def putGenesisB (db : CacheDB) (n : BlockNumber) (v : Nat) : CacheDB :=
  { db with genesisTable := fun k => if k = n then some v else db.genesisTable k }

/-- Pure store update for the metadata slot. -/
def putMetadataB (db : CacheDB) (m : Metadata) : CacheDB :=
  { db with metadataSlot := some m }

/-- Which `put` operations of the store succeed.  The source's `CacheDB`
methods return `Result`; a `false` flag makes every write to that table fail
with the corresponding context message. -/
structure DbFaults where
  headerOk : Bool
  paraHeaderOk : Bool
  storageOk : Bool
  genesisOk : Bool
  metaOk : Bool
deriving DecidableEq

/-- Ghost trace of live-chain fetch requests, used to count how often the
crawler goes to the chain API and with which arguments. -/
inductive Event where
  | fetchHeaders (start count : Nat)
  | fetchParaHeaders (start count : Nat)
  | fetchStorage (start count : Nat)
  | fetchGenesis (height : Nat)
deriving DecidableEq

/-- The external world: chain RPC endpoints and store write outcomes.
`relayChain`/`paraChain`/`storageChain` give the item the live chain serves
at each height (`none` when the chain has nothing there), the `finalized*`
fields the number of the finalized head header (`none` when the node reports
no header, which the source maps to `0` via `unwrap_or_default`). -/
structure Env where
  faults : DbFaults
  connectOk : Bool
  paraConnectOk : Bool
  relayRpcOk : Bool
  paraRpcOk : Bool
  finalizedRelay : Option BlockNumber
  finalizedPara : Option BlockNumber
  relayChain : Nat → Option BlockInfo
  paraChain : Nat → Option Header
  storageChain : Nat → Option StorageInfo
  genesisInfo : Nat → Option Nat

/-- `finalized_header_number` (grab.rs lines 105-111): finalized head hash,
then its header, `unwrap_or_default` on the number. -/
def finalized_header_number (env : Env) (para : Bool) : Except String BlockNumber :=
  if para then
    if env.paraRpcOk then .ok (env.finalizedPara.getD 0)
    else .error "Failed to get finalized head"
  else
    if env.relayRpcOk then .ok (env.finalizedRelay.getD 0)
    else .error "Failed to get finalized head"

/-- Modelled from the spec: `pherry::headers_cache::grab_*` (the pherry crate
is part of the repository but not among the available sources).  Per §4.3 the
grabber delivers fetched items to `on_item` synchronously, in strictly
increasing block-number order starting at `start`, at most `count` items,
stopping cleanly where the chain has nothing more and aborting at the first
callback failure (which is not retried).  The callback's partial effects are
kept on failure, as they are in the source (the callback mutates the store
and crawler state in place). -/
def grabLoopExternal {α St : Type} (chain : Nat → Option α)
    (onItem : α → St → St × Option String) :
    Nat → Nat → St → St × Option String
  | 0, _, s => (s, none)
  | count + 1, n, s =>
    match chain n with
    | none => (s, none)
    | some item =>
      match onItem item s with
      | (s', some e) => (s', some e)
      | (s', none) => grabLoopExternal chain onItem count (n + 1) s'

/-- The `Serve` configuration options read by the crawler. -/
structure Serve where
  genesis_block : BlockNumber
  interval : Nat
  justification_interval : BlockNumber
  check_batch : BlockNumber
  grab_headers : Bool
  grab_para_headers : Bool
  grab_storage_changes : Bool
  grab_storage_changes_batch : Nat
deriving DecidableEq

/-- `regrab_header` (grab.rs lines 368-389): single-block repair of a relay
header.  Refuses when header grabbing is disabled, connects to both nodes,
then fetches exactly one item starting at `number`, storing it under the
fetched header's number; the freshly decoded header is returned. -/
def regrab_header (env : Env) (cfg : Serve) (db : CacheDB) (number : BlockNumber) :
    CacheDB × Except String Header × List Event :=
  if ¬ cfg.grab_headers then (db, .error "Grab headers disabled", [])
  else if ¬ env.connectOk then (db, .error "Failed to connect", [])
  else if ¬ env.paraConnectOk then (db, .error "Failed to connect", [])
  else
    match grabLoopExternal env.relayChain
        (fun info (p : CacheDB × Option Header) =>
          if env.faults.headerOk then
            ((putHeaderB p.1 info.header.number (encodeInfo info), some info.header), none)
          else (p, some "Failed to put record to DB"))
        1 number (db, none) with
    | ((db', _), some e) => (db', .error e, [.fetchHeaders number 1])
    | ((db', some h), none) => (db', .ok h, [.fetchHeaders number 1])
    | ((db', none), none) => (db', .error "Failed to grab header", [.fetchHeaders number 1])

/-- `regrab_para_header` (grab.rs lines 391-410): single-block repair of a
parachain header. -/
def regrab_para_header (env : Env) (cfg : Serve) (db : CacheDB) (number : BlockNumber) :
    CacheDB × Except String Header × List Event :=
  if ¬ cfg.grab_para_headers then (db, .error "Grab parachain headers disabled", [])
  else if ¬ env.paraConnectOk then (db, .error "Failed to connect", [])
  else
    match grabLoopExternal env.paraChain
        (fun h (p : CacheDB × Option Header) =>
          if env.faults.paraHeaderOk then
            ((putParaHeaderB p.1 h.number (encodeHeader h), some h), none)
          else (p, some "Failed to put record to DB"))
        1 number (db, none) with
    | ((db', _), some e) => (db', .error e, [.fetchParaHeaders number 1])
    | ((db', some h), none) => (db', .ok h, [.fetchParaHeaders number 1])
    | ((db', none), none) => (db', .error "Failed to grab parachain header", [.fetchParaHeaders number 1])

/-- State threaded through the verify loop of `check_and_fix_headers`: the
store, the previous block's decoded header, and the mismatch / codec-error
counters. -/
abbrev CheckSt := CacheDB × Header × Nat × Nat

/-- The hash-chain comparison and one-shot dual repair of
`check_and_fix_headers` (grab.rs lines 316-326, relay arm): on mismatch,
count it, re-fetch `prev.number` (with context "Failed to regrab header") and
`cur.number`, compare once more, and bail with "Cannot fix mismatch at
{block}" if still inconsistent; otherwise `prev` advances to the (possibly
repaired) current header. -/
def relayLink (env : Env) (cfg : Serve) (block : Nat) (db : CacheDB)
    (prev cur : Header) (mm ce : Nat) : CheckSt × Option String × List Event :=
  if prev.hash = cur.parentHash then ((db, cur, mm, ce), none, [])
  else
    match regrab_header env cfg db prev.number with
    | (db2, .error e, ev2) =>
      ((db2, prev, mm + 1, ce), some (ctx "Failed to regrab header" e), ev2)
    | (db2, .ok prev', ev2) =>
      match regrab_header env cfg db2 cur.number with
      | (db3, .error e, ev3) => ((db3, prev', mm + 1, ce), some e, ev2 ++ ev3)
      | (db3, .ok cur', ev3) =>
        if prev'.hash = cur'.parentHash then ((db3, cur', mm + 1, ce), none, ev2 ++ ev3)
        else
          ((db3, prev', mm + 1, ce),
            some ("Cannot fix mismatch at " ++ toString block), ev2 ++ ev3)

/-- Para-stream arm of the hash-chain comparison (grab.rs lines 339-348),
identical to `relayLink` up to the repair function and context message. -/
def paraLink (env : Env) (cfg : Serve) (block : Nat) (db : CacheDB)
    (prev cur : Header) (mm ce : Nat) : CheckSt × Option String × List Event :=
  if prev.hash = cur.parentHash then ((db, cur, mm, ce), none, [])
  else
    match regrab_para_header env cfg db prev.number with
    | (db2, .error e, ev2) =>
      ((db2, prev, mm + 1, ce), some (ctx "Failed to regrab parachain header" e), ev2)
    | (db2, .ok prev', ev2) =>
      match regrab_para_header env cfg db2 cur.number with
      | (db3, .error e, ev3) => ((db3, prev', mm + 1, ce), some e, ev2 ++ ev3)
      | (db3, .ok cur', ev3) =>
        if prev'.hash = cur'.parentHash then ((db3, cur', mm + 1, ce), none, ev2 ++ ev3)
        else
          ((db3, prev', mm + 1, ce),
            some ("Cannot fix mismatch at " ++ toString block), ev2 ++ ev3)

/-- One iteration of the verify loop of `check_and_fix_headers` (grab.rs
lines 303-353) at block `block`: load the stored record (absence is fatal),
decode it (a decode failure counts a codec error and repairs the single
block), then run the hash-chain comparison. -/
def cafStep (env : Env) (cfg : Serve) (what : String) (block : Nat) (st : CheckSt) :
    CheckSt × Option String × List Event :=
  match st with
  | (db, prev, mm, ce) =>
    match what with
    | "relay" =>
      match db.headers block with
      | none => (st, some ("Header " ++ toString block ++ " not found"), [])
      | some bytes =>
        match decode_header bytes with
        | .ok cur => relayLink env cfg block db prev cur mm ce
        | .error _ =>
          match regrab_header env cfg db block with
          | (db', .error e, ev) => ((db', prev, mm, ce + 1), some e, ev)
          | (db', .ok cur, ev) =>
            match relayLink env cfg block db' prev cur mm (ce + 1) with
            | (st', r, ev') => (st', r, ev ++ ev')
    | "para" =>
      match db.paraHeaders block with
      | none => (st, some ("Parachain header " ++ toString block ++ " not found"), [])
      | some bytes =>
        match decode_header bytes with
        | .ok cur => paraLink env cfg block db prev cur mm ce
        | .error _ =>
          match regrab_para_header env cfg db block with
          | (db', .error e, ev) => ((db', prev, mm, ce + 1), some e, ev)
          | (db', .ok cur, ev) =>
            match paraLink env cfg block db' prev cur mm (ce + 1) with
            | (st', r, ev') => (st', r, ev ++ ev')
    | _ => (st, some ("Unknown check type " ++ what), [])

/-- The verify loop of `check_and_fix_headers` over the listed blocks
(`for block in (from + 1)..=to`), stopping at the first error. -/
def cafLoop (env : Env) (cfg : Serve) (what : String) :
    List Nat → CheckSt → CheckSt × Option String × List Event
  | [], st => (st, none, [])
  | b :: bs, st =>
    match cafStep env cfg what b st with
    | (st', some e, ev) => (st', some e, ev)
    | (st', none, ev) =>
      match cafLoop env cfg what bs st' with
      | (st'', r, ev') => (st'', r, ev ++ ev')

/-- `check_and_fix_headers` (grab.rs lines 277-361): resolve the `to` bound,
reject empty ranges, load and decode the header at `from` (stream dispatch
on `what`), walk the blocks from `from + 1` up to `to` repairing as needed, and return the summary
string. -/
def check_and_fix_headers (env : Env) (cfg : Serve) (db : CacheDB) (what : String)
    (fromB : BlockNumber) (toOpt : Option BlockNumber) (countOpt : Option BlockNumber) :
    CacheDB × Except String String × List Event :=
  let toB := toOpt.getD (fromB + countOpt.getD 1)
  if toB ≤ fromB then (db, .error "Invalid range", [])
  else
    match (match what with
      | "relay" => Except.ok (db.headers fromB)
      | "para" => Except.ok (db.paraHeaders fromB)
      | _ => Except.error ("Unknown check type " ++ what) : Except String (Option Bytes)) with
    | .error e => (db, .error e, [])
    | .ok none => (db, .error ("Header " ++ toString fromB ++ " not found"), [])
    | .ok (some bytes) =>
      match decode_header bytes with
      | .error _ => (db, .error ("Failed to decode header " ++ toString fromB), [])
      | .ok prev0 =>
        match cafLoop env cfg what (List.range' (fromB + 1) (toB - fromB)) (db, prev0, 0, 0) with
        | ((db', _, _, _), some e, ev) => (db', .error e, ev)
        | ((db', _, mm, ce), none, ev) =>
          let resp :=
            if 0 < mm ∨ 0 < ce then
              "Checked blocks from " ++ toString fromB ++ " to " ++ toString toB ++ ", " ++
                toString mm ++ " mismatches, " ++ toString ce ++ " codec errors"
            else
              "Checked blocks from " ++ toString fromB ++ " to " ++ toString toB ++ ", All OK"
          (db', .ok resp, ev)

/-- The crawler's mutable state: the store handle, the in-memory `Metadata`,
the three next-block cursors (`next_header`, `next_para_header`,
`next_delta`) and the two process-visible atomics. -/
structure CrawlState where
  db : CacheDB
  meta : Metadata
  nextHeader : BlockNumber
  nextParaHeader : BlockNumber
  nextDelta : BlockNumber
  latestJust : Nat
  genesisAtomic : Nat

/-- The `on_item` closure of `grab_headers` (grab.rs lines 131-145): record
the justification marker when present, persist the encoded item, update the
in-memory `higest.header` cursor, persist `Metadata`, and only then advance
`next_header` to `number + 1`. -/
def on_header_item (env : Env) (info : BlockInfo) (s : CrawlState) :
    CrawlState × Option String :=
  let s := if info.justification then { s with latestJust := info.header.number } else s
  if env.faults.headerOk then
    let s := { s with db := putHeaderB s.db info.header.number (encodeInfo info) }
    let meta' := Metadata.update_header s.meta info.header.number
    let s := { s with meta := meta' }
    if env.faults.metaOk then
      ({ s with db := putMetadataB s.db meta', nextHeader := info.header.number + 1 }, none)
    else (s, some "Failed to update metadata")
  else (s, some "Failed to put record to DB")

/-- The `on_item` closure of `grab_para_headers` (grab.rs lines 162-172). -/
def on_para_item (env : Env) (h : Header) (s : CrawlState) :
    CrawlState × Option String :=
  if env.faults.paraHeaderOk then
    let s := { s with db := putParaHeaderB s.db h.number (encodeHeader h) }
    let meta' := Metadata.update_para_header s.meta h.number
    let s := { s with meta := meta' }
    if env.faults.metaOk then
      ({ s with db := putMetadataB s.db meta', nextParaHeader := h.number + 1 }, none)
    else (s, some "Failed to update metadata")
  else (s, some "Failed to put record to DB")

/-- The `on_item` closure of `grab_storage_changes` (grab.rs lines 193-204). -/
def on_storage_item (env : Env) (info : StorageInfo) (s : CrawlState) :
    CrawlState × Option String :=
  if env.faults.storageOk then
    let s := { s with db := putStorageB s.db info.block_header.number info }
    let meta' := Metadata.update_storage_changes s.meta info.block_header.number
    let s := { s with meta := meta' }
    if env.faults.metaOk then
      ({ s with db := putMetadataB s.db meta', nextDelta := info.block_header.number + 1 }, none)
    else (s, some "Failed to update metadata")
  else (s, some "Failed to put record to DB")

namespace Crawler

/-- `Crawler::grab_headers` (grab.rs lines 113-150): query the relay
finalized head, no-op when header grabbing is disabled or when
`latest_finalized < next_header + justification_interval`, otherwise stream
items from `next_header` (up to `u32::MAX` of them) through
`on_header_item`, wrapping a grab failure with context "Failed to grab
headers from node". -/
def grab_headers (env : Env) (cfg : Serve) (s : CrawlState) :
    CrawlState × Option String × List Event :=
  match finalized_header_number env false with
  | .error e => (s, some e, [])
  | .ok latestFinalized =>
    if ¬ cfg.grab_headers then (s, none, [])
    else if latestFinalized < s.nextHeader + cfg.justification_interval then (s, none, [])
    else
      match grabLoopExternal env.relayChain (on_header_item env) u32Max s.nextHeader s with
      | (s', some e) =>
        (s', some (ctx "Failed to grab headers from node" e), [.fetchHeaders s.nextHeader u32Max])
      | (s', none) => (s', none, [.fetchHeaders s.nextHeader u32Max])

/-- `Crawler::grab_para_headers` (grab.rs lines 152-176): no-op when
para-header grabbing is disabled or the parachain finalized head is behind
`next_para_header`, otherwise stream exactly the available range. -/
def grab_para_headers (env : Env) (cfg : Serve) (s : CrawlState) :
    CrawlState × Option String × List Event :=
  match finalized_header_number env true with
  | .error e => (s, some e, [])
  | .ok latestFinalized =>
    if ¬ cfg.grab_para_headers then (s, none, [])
    else if latestFinalized < s.nextParaHeader then (s, none, [])
    else
      let count := latestFinalized - s.nextParaHeader + 1
      match grabLoopExternal env.paraChain (on_para_item env) count s.nextParaHeader s with
      | (s', some e) =>
        (s', some (ctx "Failed to grab para headers from node" e),
          [.fetchParaHeaders s.nextParaHeader count])
      | (s', none) => (s', none, [.fetchParaHeaders s.nextParaHeader count])

/-- `Crawler::grab_storage_changes` (grab.rs lines 178-209): same admission
rule as para headers, batched upstream by
`config.grab_storage_changes_batch` (chunking is an upstream concern with no
further observable effect here). -/
def grab_storage_changes (env : Env) (cfg : Serve) (s : CrawlState) :
    CrawlState × Option String × List Event :=
  match finalized_header_number env true with
  | .error e => (s, some e, [])
  | .ok latestFinalized =>
    if ¬ cfg.grab_storage_changes then (s, none, [])
    else if latestFinalized < s.nextDelta then (s, none, [])
    else
      let count := latestFinalized - s.nextDelta + 1
      match grabLoopExternal env.storageChain (on_storage_item env) count s.nextDelta s with
      | (s', some e) =>
        (s', some (ctx "Failed to grab storage changes from node" e),
          [.fetchStorage s.nextDelta count])
      | (s', none) => (s', none, [.fetchStorage s.nextDelta count])

/-- The relay verify window of `continue_check_headers` (grab.rs lines
216-221): start at the previous `checked` boundary (defaulting to the
configured genesis block), end at most `check_batch` blocks further, capped
by `recent_imported`. -/
def relayWindow (cfg : Serve) (meta : Metadata) : Nat × Nat :=
  let relayStart := meta.checked.header.getD cfg.genesis_block
  (relayStart, min (meta.recent_imported.header.getD 0) (relayStart + cfg.check_batch))

/-- The para verify window of `continue_check_headers` (grab.rs lines
229-234), with `0` defaults. -/
def paraWindow (cfg : Serve) (meta : Metadata) : Nat × Nat :=
  let paraStart := meta.checked.para_header.getD 0
  (paraStart, min (meta.recent_imported.para_header.getD 0) (paraStart + cfg.check_batch))

/-- The relay block of `Crawler::continue_check_headers` (grab.rs lines
216-227): on a successful pass over a non-empty window the `checked.header`
cursor is set to the window end and `Metadata` persisted. -/
def relay_check_stage (env : Env) (cfg : Serve) (db : CacheDB) (meta : Metadata) :
    (CacheDB × Metadata) × Option String × List Event :=
  let w := relayWindow cfg meta
  if w.1 < w.2 then
    match check_and_fix_headers env cfg db "relay" w.1 (some w.2) none with
    | (db', .error e, ev) => ((db', meta), some e, ev)
    | (db', .ok _, ev) =>
      let meta' := { meta with checked := { meta.checked with header := some w.2 } }
      if env.faults.metaOk then ((putMetadataB db' meta', meta'), none, ev)
      else ((db', meta'), some "Failed to update metadata", ev)
  else ((db, meta), none, [])

/-- The para block of `Crawler::continue_check_headers` (grab.rs lines
229-240), analogous to the relay block. -/
def para_check_stage (env : Env) (cfg : Serve) (db : CacheDB) (meta : Metadata) :
    (CacheDB × Metadata) × Option String × List Event :=
  let w := paraWindow cfg meta
  if w.1 < w.2 then
    match check_and_fix_headers env cfg db "para" w.1 (some w.2) none with
    | (db', .error e, ev) => ((db', meta), some e, ev)
    | (db', .ok _, ev) =>
      let meta' := { meta with checked := { meta.checked with para_header := some w.2 } }
      if env.faults.metaOk then ((putMetadataB db' meta', meta'), none, ev)
      else ((db', meta'), some "Failed to update metadata", ev)
  else ((db, meta), none, [])

/-- `Crawler::continue_check_headers` (grab.rs lines 211-242): the relay
verify window, then — only if it did not fail — the para verify window
(`?` propagation ends the function at the first error). -/
def continue_check_headers (env : Env) (cfg : Serve) (db : CacheDB) (meta : Metadata) :
    (CacheDB × Metadata) × Option String × List Event :=
  match relay_check_stage env cfg db meta with
  | (p, some e, ev) => (p, some e, ev)
  | ((db1, meta1), none, ev1) =>
    match para_check_stage env cfg db1 meta1 with
    | (q, r, ev2) => (q, r, ev1 ++ ev2)

/-- One iteration of the `Crawler::run` inner loop (grab.rs lines 244-254,
sans sleep): the three grab stages in order, each `?`-propagating its error
and thereby skipping the remaining stages, then the verify pass whose error
is only logged. -/
def iterate (env : Env) (cfg : Serve) (s : CrawlState) :
    CrawlState × Option String × List Event :=
  match grab_headers env cfg s with
  | (s1, some e, ev) => (s1, some e, ev)
  | (s1, none, ev1) =>
    match grab_para_headers env cfg s1 with
    | (s2, some e, ev2) => (s2, some e, ev1 ++ ev2)
    | (s2, none, ev2) =>
      match grab_storage_changes env cfg s2 with
      | (s3, some e, ev3) => (s3, some e, ev1 ++ ev2 ++ ev3)
      | (s3, none, ev3) =>
        match continue_check_headers env cfg s3.db s3.meta with
        | ((db', meta'), _, ev4) =>
          ({ s3 with db := db', meta := meta' }, none, ev1 ++ ev2 ++ ev3 ++ ev4)

/-- The fuelled `Crawler::run` inner loop: keeps iterating until a grab
stage fails (the error is the only way the source's inner `loop` is left) or
until `fuel` runs out, in which case the current state is reported as still
running. -/
def runInner (env : Env) (cfg : Serve) : Nat → CrawlState → CrawlState × Option String × List Event
  | 0, s => (s, none, [])
  | fuel + 1, s =>
    match iterate env cfg s with
    | (s', some e, ev) => (s', some e, ev)
    | (s', none, ev) =>
      match runInner env cfg fuel s' with
      | (s'', r, ev') => (s'', r, ev ++ ev')

/-- The genesis-bootstrapping step at the head of `Crawler::grab` (grab.rs
lines 81-90): if the configured genesis height is already in
`metadata.genesis`, do nothing; otherwise fetch genesis info, persist it,
record the height in `Metadata`, persist `Metadata`. -/
def ensure_genesis (env : Env) (cfg : Serve) (db : CacheDB) (meta : Metadata) :
    (CacheDB × Metadata) × Option String × List Event :=
  if cfg.genesis_block ∈ meta.genesis then ((db, meta), none, [])
  else
    match env.genesisInfo cfg.genesis_block with
    | none => ((db, meta), some "Failed to fetch genesis info", [.fetchGenesis cfg.genesis_block])
    | some gi =>
      if env.faults.genesisOk then
        let db := putGenesisB db cfg.genesis_block gi
        let meta' := Metadata.put_genesis meta cfg.genesis_block
        if env.faults.metaOk then
          ((putMetadataB db meta', meta'), none, [.fetchGenesis cfg.genesis_block])
        else ((db, meta'), some "Failed to update metadata", [.fetchGenesis cfg.genesis_block])
      else ((db, meta), some "Failed to put genesis", [.fetchGenesis cfg.genesis_block])

/-- `Crawler::grab` (grab.rs lines 65-103): connect to both nodes, bootstrap
genesis, then enter the inner loop (fuelled). -/
def grab (env : Env) (cfg : Serve) (fuel : Nat) (s : CrawlState) :
    CrawlState × Option String × List Event :=
  if ¬ env.connectOk then (s, some "Failed to connect", [])
  else if ¬ env.paraConnectOk then (s, some "Failed to connect", [])
  else
    match ensure_genesis env cfg s.db s.meta with
    | ((db', meta'), some e, ev) => ({ s with db := db', meta := meta' }, some e, ev)
    | ((db', meta'), none, ev) =>
      match runInner env cfg fuel { s with db := db', meta := meta' } with
      | (s', r, ev') => (s', r, ev ++ ev')

end Crawler

/-- Startup of `run` (grab.rs lines 18-34): load the last `Metadata` (or the
zero default), derive the three next-block cursors, and store the configured
genesis height into the `GENESIS` atomic. -/
def run_init (cfg : Serve) (db : CacheDB) : CrawlState :=
  let metadata := db.metadataSlot.getD Metadata.init
  { db := db
    meta := metadata
    nextHeader :=
      match metadata.higest.header with
      | some highest => highest + 1
      | none => cfg.genesis_block
    nextParaHeader := (metadata.higest.para_header.map (· + 1)).getD 0
    nextDelta := (metadata.higest.storage_changes.map (· + 1)).getD 0
    latestJust := u32Max
    genesisAtomic := cfg.genesis_block }

/-- The body of the outer `run` loop (grab.rs lines 36-50): run
`Crawler::grab` and log (discard) its error, then sleep. -/
def run_iteration (env : Env) (cfg : Serve) (fuelInner : Nat) (s : CrawlState) : CrawlState :=
  match Crawler.grab env cfg fuelInner s with
  | (s', _, _) => s'

/-- Observable outcome of running the outer loop for a while: either the
loop is still running in some state, or it has returned a value to the
caller of `run` (which the source's `loop` never does). -/
inductive RunOutcome where
  | running (s : CrawlState)
  | returned (r : Option String)

/-- The fuelled outer `run` loop. -/
def run_loop (env : Env) (cfg : Serve) (fuelInner : Nat) :
    Nat → CrawlState → RunOutcome
  | 0, s => .running s
  | fuel + 1, s => run_loop env cfg fuelInner fuel (run_iteration env cfg fuelInner s)

/-- One recorded mutation of the two process-visible atomics: the
`GENESIS.store` at crawler startup (grab.rs line 34), the
`LATEST_JUSTFICATION.store` on a grabbed justification (line 134), or an
`update_404_block` call (lines 268-270). -/
inductive AtomEvent where
  | storeGenesis (g : Nat)
  | storeJust (n : Nat)
  | update404 (b : Nat)
deriving DecidableEq

/-- Whether an event records a justification. -/
def recordsJust : AtomEvent → Bool
  | .storeJust _ => true
  | _ => false

/-- The pair of atomics `(GENESIS, LATEST_JUSTFICATION)`. -/
abbrev Atomics := Nat × Nat

/-- Initial atomics state: both `AtomicU32::new(u32::MAX)` (grab.rs lines
257-258). -/
def atomicsInit : Atomics := (u32Max, u32Max)

/-- `genesis_block()` (grab.rs lines 260-262). -/
def genesis_block (s : Atomics) : BlockNumber := s.1

/-- `latest_justification()` (grab.rs lines 264-266). -/
def latest_justification (s : Atomics) : BlockNumber := s.2

/-- `update_404_block(block)` (grab.rs lines 268-270):
`LATEST_JUSTFICATION.fetch_min(block.saturating_sub(1))`; `Nat` subtraction
is already saturating. -/
def update_404_block (block : BlockNumber) (s : Atomics) : Atomics :=
  (s.1, min s.2 (block - 1))

/-- Apply one recorded mutation to the atomics. -/
def applyAtomEvent (e : AtomEvent) (s : Atomics) : Atomics :=
  match e with
  | .storeGenesis g => (g, s.2)
  | .storeJust n => (s.1, n)
  | .update404 b => update_404_block b s

/-- The atomics after a sequence of recorded mutations, starting from the
static initializers. -/
def runAtomEvents (es : List AtomEvent) : Atomics :=
  es.foldl (fun s e => applyAtomEvent e s) atomicsInit

/-- Iterating the continuous verifier: apply `continue_check_headers` `k`
times to the store/metadata pair, keeping the state it leaves behind. -/
def iterateCheck (env : Env) (cfg : Serve) : Nat → CacheDB × Metadata → CacheDB × Metadata
  | 0, p => p
  | k + 1, p => iterateCheck env cfg k (Crawler.continue_check_headers env cfg p.1 p.2).1

/-! ## Concrete fixtures for witnesses -/

/-- An all-healthy fault model. -/
def faultsOk : DbFaults := ⟨true, true, true, true, true⟩

/-- A healthy environment with an empty live chain and genesis info `7` at
every height. -/
def envA : Env :=
  { faults := faultsOk
    connectOk := true
    paraConnectOk := true
    relayRpcOk := true
    paraRpcOk := true
    finalizedRelay := some 0
    finalizedPara := some 0
    relayChain := fun _ => none
    paraChain := fun _ => none
    storageChain := fun _ => none
    genesisInfo := fun _ => some 7 }

/-- Configuration with all three streams enabled. -/
def cfgOn : Serve := ⟨0, 1, 10, 100, true, true, true, 1⟩

/-- Configuration with all three streams disabled. -/
def cfgOff : Serve := ⟨0, 1, 10, 100, false, false, false, 1⟩

/-- A genesis-position header. -/
def hdrA : Header := ⟨0, 0, 0⟩

/-- A store holding a good header at 0 and a corrupt record at 1. -/
def dbA : CacheDB :=
  { headers := fun k =>
      if k = 0 then some (Bytes.good hdrA) else if k = 1 then some (Bytes.bad 0) else none
    paraHeaders := fun _ => none
    storageChanges := fun _ => none
    genesisTable := fun _ => none
    metadataSlot := none }

/-- A crawler state over `dbA` with cursors ahead of the finalized heads of
`envA`. -/
def stA : CrawlState := ⟨dbA, Metadata.init, 0, 5, 5, u32Max, u32Max⟩

/-- Metadata whose `checked.header` boundary points at the corrupt record of
`dbA` with `recent_imported` further ahead. -/
def metaC9 : Metadata :=
  { higest := ⟨some 3, none, none⟩
    checked := ⟨some 1, none, none⟩
    recent_imported := ⟨some 3, none, none⟩
    genesis := [] }

/-- A grabbed relay item carrying a justification. -/
def infoA : BlockInfo := ⟨⟨5, 9, 0⟩, true⟩

/-- A grabbed storage-changes item. -/
def sinfoA : StorageInfo := ⟨⟨7, 3, 0⟩⟩

/-- Live-chain relay header at height 0 for the unrepairable-mismatch
scenario (differs from the stored header at 0). -/
def hdrP : Header := ⟨0, 0, 1⟩

/-- Live-chain relay header at height 1 for the unrepairable-mismatch
scenario: its parent hash matches neither the stored nor the re-fetched
header at 0. -/
def hdrC : Header := ⟨1, 888, 0⟩

/-- Environment serving `hdrP`/`hdrC` as the live relay chain. -/
def envC1 : Env :=
  { envA with
      relayChain := fun n =>
        if n = 0 then some ⟨hdrP, false⟩ else if n = 1 then some ⟨hdrC, false⟩ else none }

/-- Store with a hash-chain break between blocks 0 and 1 that the live chain
of `envC1` cannot repair. -/
def dbC1 : CacheDB :=
  { dbA with
      headers := fun k =>
        if k = 0 then some (Bytes.good ⟨0, 0, 0⟩)
        else if k = 1 then some (Bytes.good ⟨1, 999, 0⟩) else none }

/-- Metadata whose relay verify window is exactly blocks 0 to 1. -/
def metaC1 : Metadata :=
  { higest := ⟨some 1, none, none⟩
    checked := ⟨some 0, none, none⟩
    recent_imported := ⟨some 1, none, none⟩
    genesis := [] }

/-- A concrete well-linked header chain: each header's parent hash is the
hash of its predecessor. -/
def chainW : Nat → Header
  | 0 => ⟨0, 0, 0⟩
  | n + 1 => ⟨n + 1, (chainW n).hash, 0⟩

/-- Store holding `chainW` at blocks 0 and 2 with a corrupt record at 1. -/
def dbC2 : CacheDB :=
  { dbA with
      headers := fun k =>
        if k = 0 then some (Bytes.good (chainW 0))
        else if k = 1 then some (Bytes.bad 5)
        else if k = 2 then some (Bytes.good (chainW 2)) else none }

/-- Environment whose live relay chain serves the correct header at 1. -/
def envC2 : Env :=
  { envA with relayChain := fun n => if n = 1 then some ⟨chainW 1, false⟩ else none }

/-- An environment whose relay RPC is down. -/
def envBad : Env :=
  { envA with relayRpcOk := false }

/-! ## C10 -/

/-- C10 counterexample: the claim asserts that before any justification is
recorded `genesis_block()` returns `u32::MAX`; but the startup
`GENESIS.store` (grab.rs line 34) is a mutation that records no
justification, after which `genesis_block()` returns the configured height
instead of the sentinel. -/
theorem c10_counterexample_genesis_before_just :
    ([AtomEvent.storeGenesis 1000].all fun e => !(recordsJust e)) = true ∧
      genesis_block (runAtomEvents [AtomEvent.storeGenesis 1000]) ≠ u32Max := by
  exact ⟨rfl, by decide⟩

/-- C10 (amended): `update_404_block(b)` sets the exposed
`latest_justification` observable to the minimum of its current value and
`b - 1` (saturating at 0) and therefore never increases it; the counter is
not monotonically non-decreasing over the process lifetime (a recorded
justification followed by a 404 update strictly decreases it); and in the
initial state, before any recorded mutation, both `latest_justification()`
and `genesis_block()` return the sentinel `u32::MAX`. -/
theorem c10_latest_justification_observable :
    (∀ (b : Nat) (s : Atomics),
        update_404_block b s = (genesis_block s, min (latest_justification s) (b - 1)) ∧
          latest_justification (update_404_block b s) ≤ latest_justification s) ∧
      latest_justification (runAtomEvents [AtomEvent.storeJust 100, AtomEvent.update404 50]) <
        latest_justification (runAtomEvents [AtomEvent.storeJust 100]) ∧
      latest_justification (runAtomEvents []) = u32Max ∧
      genesis_block (runAtomEvents []) = u32Max := by
  refine ⟨fun b s => ⟨rfl, min_le_left _ _⟩, ?_, rfl, rfl⟩
  decide

/-! ## C8 -/

/-- C8: single-block repair of a relay header fails with "Grab headers
disabled" whenever header grabbing is disabled, para-header repair fails
with its own disabled error, and a verify step that needs a repair on a
disabled stream (decode failure or hash mismatch) itself fails rather than
silently skipping the repair. -/
theorem c8_disabled_stream_repair_fails :
    ∀ (env : Env) (cfg : Serve) (db : CacheDB) (n : Nat),
      (cfg.grab_headers = false →
        regrab_header env cfg db n = (db, .error "Grab headers disabled", [])) ∧
      (cfg.grab_para_headers = false →
        regrab_para_header env cfg db n = (db, .error "Grab parachain headers disabled", [])) ∧
      (∀ (prev : Header) (mm ce : Nat) (bytes : Bytes) (err : String),
        cfg.grab_headers = false →
        db.headers n = some bytes →
        decode_header bytes = .error err →
        cafStep env cfg "relay" n (db, prev, mm, ce) =
          ((db, prev, mm, ce + 1), some "Grab headers disabled", [])) ∧
      (∀ (prev cur : Header) (mm ce : Nat) (bytes : Bytes),
        cfg.grab_headers = false →
        db.headers n = some bytes →
        decode_header bytes = .ok cur →
        prev.hash ≠ cur.parentHash →
        cafStep env cfg "relay" n (db, prev, mm, ce) =
          ((db, prev, mm + 1, ce),
            some (ctx "Failed to regrab header" "Grab headers disabled"), [])) := by
  intro env cfg db n
  refine ⟨fun h => ?_, fun h => ?_, fun prev mm ce bytes err h hdb hdec => ?_,
    fun prev cur mm ce bytes h hdb hdec hne => ?_⟩
  · simp [regrab_header, h]
  · simp [regrab_para_header, h]
  · simp [cafStep, hdb, hdec, regrab_header, h]
  · simp [cafStep, hdb, hdec, relayLink, hne, regrab_header, h]

/-! ## C4 -/

/-- C4: relay-header grabbing is a no-op (success, no store write, no cursor
change, no fetch) whenever the relay finalized head is below
`next_header + justification_interval`; para-header and storage-change
grabbing are no-ops whenever the parachain finalized head is below the
respective next cursor. -/
theorem c4_admission_gating :
    ∀ (env : Env) (cfg : Serve) (s : CrawlState),
      (env.relayRpcOk = true →
        env.finalizedRelay.getD 0 < s.nextHeader + cfg.justification_interval →
        Crawler.grab_headers env cfg s = (s, none, [])) ∧
      (env.paraRpcOk = true →
        env.finalizedPara.getD 0 < s.nextParaHeader →
        Crawler.grab_para_headers env cfg s = (s, none, [])) ∧
      (env.paraRpcOk = true →
        env.finalizedPara.getD 0 < s.nextDelta →
        Crawler.grab_storage_changes env cfg s = (s, none, [])) := by
  intro env cfg s
  refine ⟨fun hok hlt => ?_, fun hok hlt => ?_, fun hok hlt => ?_⟩
  · simp [Crawler.grab_headers, finalized_header_number, hok, hlt]
  · simp [Crawler.grab_para_headers, finalized_header_number, hok, hlt]
  · simp [Crawler.grab_storage_changes, finalized_header_number, hok, hlt]

/-! ## C9 -/

/-- C9: a decode failure at the `from` boundary block makes
`check_and_fix_headers` fail immediately with "Failed to decode header
{from}", without touching the store or attempting any repair; and since the
continuous verifier reuses `metadata.checked` as its next `from` boundary, a
corrupted record at that boundary keeps every future `continue_check_headers`
tick failing identically, leaving store and metadata unchanged forever. -/
theorem c9_boundary_decode_never_healed :
    ∀ (env : Env) (cfg : Serve) (db : CacheDB),
      (∀ (fromB toB : Nat) (bytes : Bytes) (err : String),
        fromB < toB →
        db.headers fromB = some bytes →
        decode_header bytes = .error err →
        check_and_fix_headers env cfg db "relay" fromB (some toB) none =
          (db, .error ("Failed to decode header " ++ toString fromB), [])) ∧
      (∀ (meta : Metadata) (bytes : Bytes) (err : String) (k : Nat),
        db.headers (meta.checked.header.getD cfg.genesis_block) = some bytes →
        decode_header bytes = .error err →
        meta.checked.header.getD cfg.genesis_block <
          min (meta.recent_imported.header.getD 0)
            (meta.checked.header.getD cfg.genesis_block + cfg.check_batch) →
        Crawler.continue_check_headers env cfg db meta =
          ((db, meta),
            some ("Failed to decode header " ++
              toString (meta.checked.header.getD cfg.genesis_block)), []) ∧
          iterateCheck env cfg k (db, meta) = (db, meta)) := by
  intro env cfg db
  have main : ∀ (fromB toB : Nat) (bytes : Bytes) (err : String),
      fromB < toB →
      db.headers fromB = some bytes →
      decode_header bytes = .error err →
      check_and_fix_headers env cfg db "relay" fromB (some toB) none =
        (db, .error ("Failed to decode header " ++ toString fromB), []) := by
    intro fromB toB bytes err hlt hdb hdec
    simp [check_and_fix_headers, hdb, hdec, show ¬ toB ≤ fromB by omega]
  refine ⟨main, ?_⟩
  intro meta bytes err k hdb hdec hlt
  have hstage : Crawler.relay_check_stage env cfg db meta =
      ((db, meta),
        some ("Failed to decode header " ++
          toString (meta.checked.header.getD cfg.genesis_block)), []) := by
    simp only [Crawler.relay_check_stage, Crawler.relayWindow]
    rw [if_pos hlt, main _ _ bytes err hlt hdb hdec]
  have hcc : Crawler.continue_check_headers env cfg db meta =
      ((db, meta),
        some ("Failed to decode header " ++
          toString (meta.checked.header.getD cfg.genesis_block)), []) := by
    simp only [Crawler.continue_check_headers]
    rw [hstage]
  refine ⟨hcc, ?_⟩
  induction k with
  | zero => rfl
  | succ k ih => simpa [iterateCheck, hcc] using ih

/-! ## C7 -/

/-- C7: genesis bootstrapping is idempotent per height — when the configured
height is already recorded in `metadata.genesis` the step performs no fetch
and no store write; otherwise it fetches once, writes the genesis table,
records the height and persists `Metadata`, after which a second invocation
is a no-op (so two invocations perform exactly one fetch event and one
genesis store write in total). -/
theorem c7_genesis_idempotent :
    ∀ (env : Env) (cfg : Serve) (db : CacheDB) (meta : Metadata) (gi : Nat),
      (cfg.genesis_block ∈ meta.genesis →
        Crawler.ensure_genesis env cfg db meta = ((db, meta), none, [])) ∧
      (cfg.genesis_block ∉ meta.genesis →
        env.genesisInfo cfg.genesis_block = some gi →
        env.faults.genesisOk = true → env.faults.metaOk = true →
        Crawler.ensure_genesis env cfg db meta =
          ((putMetadataB (putGenesisB db cfg.genesis_block gi)
              (Metadata.put_genesis meta cfg.genesis_block),
            Metadata.put_genesis meta cfg.genesis_block),
            none, [.fetchGenesis cfg.genesis_block]) ∧
        Crawler.ensure_genesis env cfg
            (putMetadataB (putGenesisB db cfg.genesis_block gi)
              (Metadata.put_genesis meta cfg.genesis_block))
            (Metadata.put_genesis meta cfg.genesis_block) =
          ((putMetadataB (putGenesisB db cfg.genesis_block gi)
              (Metadata.put_genesis meta cfg.genesis_block),
            Metadata.put_genesis meta cfg.genesis_block),
            none, [])) := by
  intro env cfg db meta gi
  have hmem : ∀ (m : Metadata) (h : BlockNumber), h ∈ (Metadata.put_genesis m h).genesis := by
    intro m h
    unfold Metadata.put_genesis
    split
    · assumption
    · simp
  refine ⟨fun h => ?_, fun h hgi hg hm => ⟨?_, ?_⟩⟩
  · simp [Crawler.ensure_genesis, h]
  · simp [Crawler.ensure_genesis, h, hgi, hg, hm]
  · simp [Crawler.ensure_genesis, hmem]

/-! ## C3 -/

/-- C3: each grab callback persists the encoded item, updates the in-memory
highest cursor, and persists `Metadata`, and only when all of these succeed
is the stream's next-block cursor advanced to `number + 1`; on a failed item
put the store and metadata are untouched, on a failed metadata persist the
item is in the store but the metadata slot is not updated, and in every
failure case the cursor keeps its old value.  Stated for the relay-header
callback and the storage-changes callback. -/
theorem c3_persist_before_advance :
    ∀ (env : Env) (info : BlockInfo) (sinfo : StorageInfo) (s t : CrawlState),
      (env.faults.headerOk = true → env.faults.metaOk = true →
        (on_header_item env info s).2 = none ∧
        (on_header_item env info s).1.db.headers info.header.number = some (encodeInfo info) ∧
        (on_header_item env info s).1.meta = Metadata.update_header s.meta info.header.number ∧
        (on_header_item env info s).1.db.metadataSlot =
          some (Metadata.update_header s.meta info.header.number) ∧
        (on_header_item env info s).1.nextHeader = info.header.number + 1) ∧
      ((on_header_item env info s).2 ≠ none →
        (on_header_item env info s).1.nextHeader = s.nextHeader) ∧
      (env.faults.headerOk = false →
        (on_header_item env info s).1.db = s.db ∧
        (on_header_item env info s).1.meta = s.meta ∧
        (on_header_item env info s).2 = some "Failed to put record to DB") ∧
      (env.faults.headerOk = true → env.faults.metaOk = false →
        (on_header_item env info s).1.db.headers info.header.number = some (encodeInfo info) ∧
        (on_header_item env info s).1.db.metadataSlot = s.db.metadataSlot ∧
        (on_header_item env info s).1.nextHeader = s.nextHeader ∧
        (on_header_item env info s).2 = some "Failed to update metadata") ∧
      (env.faults.storageOk = true → env.faults.metaOk = true →
        (on_storage_item env sinfo t).2 = none ∧
        (on_storage_item env sinfo t).1.db.storageChanges sinfo.block_header.number = some sinfo ∧
        (on_storage_item env sinfo t).1.meta =
          Metadata.update_storage_changes t.meta sinfo.block_header.number ∧
        (on_storage_item env sinfo t).1.db.metadataSlot =
          some (Metadata.update_storage_changes t.meta sinfo.block_header.number) ∧
        (on_storage_item env sinfo t).1.nextDelta = sinfo.block_header.number + 1) ∧
      ((on_storage_item env sinfo t).2 ≠ none →
        (on_storage_item env sinfo t).1.nextDelta = t.nextDelta) := by
  intro env info sinfo s t
  cases hH : env.faults.headerOk <;> cases hM : env.faults.metaOk <;>
    cases hS : env.faults.storageOk <;> cases hj : info.justification <;>
      simp [on_header_item, on_storage_item, hH, hM, hS, hj,
        putHeaderB, putStorageB, putMetadataB]

/-- C8 witness: with grabbing disabled, repair of header 1 fails with the
disabled error, and the verify step needing that repair fails as well. -/
theorem c8_disabled_witness :
    regrab_header envA cfgOff dbA 1 = (dbA, .error "Grab headers disabled", []) ∧
      cafStep envA cfgOff "relay" 1 (dbA, hdrA, 0, 0) =
        ((dbA, hdrA, 0, 1), some "Grab headers disabled", []) :=
  ⟨(c8_disabled_stream_repair_fails envA cfgOff dbA 1).1 rfl,
    (c8_disabled_stream_repair_fails envA cfgOff dbA 1).2.2.1 hdrA 0 0 (Bytes.bad 0)
      "Failed to decode header" rfl (by decide) rfl⟩

/-- C4 witness: with finalized heads at 0 and cursors/margins ahead, all
three grab stages are no-ops. -/
theorem c4_gating_witness :
    Crawler.grab_headers envA cfgOn stA = (stA, none, []) ∧
      Crawler.grab_para_headers envA cfgOn stA = (stA, none, []) ∧
      Crawler.grab_storage_changes envA cfgOn stA = (stA, none, []) :=
  ⟨(c4_admission_gating envA cfgOn stA).1 rfl (by decide),
    (c4_admission_gating envA cfgOn stA).2.1 rfl (by decide),
    (c4_admission_gating envA cfgOn stA).2.2 rfl (by decide)⟩

/-- C9 witness: with `checked.header = 1` pointing at the corrupt record,
the continuous verifier fails every tick and three iterations leave store
and metadata untouched. -/
theorem c9_boundary_witness :
    Crawler.continue_check_headers envA cfgOn dbA metaC9 =
        ((dbA, metaC9), some ("Failed to decode header " ++ toString 1), []) ∧
      iterateCheck envA cfgOn 3 (dbA, metaC9) = (dbA, metaC9) :=
  (c9_boundary_decode_never_healed envA cfgOn dbA).2 metaC9 (Bytes.bad 0)
    "Failed to decode header" 3 (by decide) rfl (by decide)

/-- C7 witness: bootstrapping height 0 on a fresh metadata performs the
fetch and writes, and a second invocation is a no-op with no fetch event. -/
theorem c7_genesis_witness :
    Crawler.ensure_genesis envA cfgOn dbA Metadata.init =
        ((putMetadataB (putGenesisB dbA 0 7) (Metadata.put_genesis Metadata.init 0),
          Metadata.put_genesis Metadata.init 0), none, [.fetchGenesis 0]) ∧
      Crawler.ensure_genesis envA cfgOn
          (putMetadataB (putGenesisB dbA 0 7) (Metadata.put_genesis Metadata.init 0))
          (Metadata.put_genesis Metadata.init 0) =
        ((putMetadataB (putGenesisB dbA 0 7) (Metadata.put_genesis Metadata.init 0),
          Metadata.put_genesis Metadata.init 0), none, []) :=
  (c7_genesis_idempotent envA cfgOn dbA Metadata.init 7).2 (by decide) rfl rfl rfl

/-- C3 witness: on a healthy store the relay callback succeeds and advances
`next_header` to 6, and the storage callback advances `next_delta` to 8. -/
theorem c3_persist_witness :
    (on_header_item envA infoA stA).2 = none ∧
      (on_header_item envA infoA stA).1.nextHeader = 6 ∧
      (on_storage_item envA sinfoA stA).1.nextDelta = 8 := by
  have h := c3_persist_before_advance envA infoA sinfoA stA stA
  exact ⟨(h.1 rfl rfl).1, (h.1 rfl rfl).2.2.2.2, (h.2.2.2.2.1 rfl rfl).2.2.2.2⟩

/-! ## C6 -/

/-- C6: the outer run loop never returns for any amount of fuel and any
environment (errors are logged and the next iteration retries); an error in
the first grab stage ends that iteration there, skipping the remaining grab
stages; and when the three grab stages succeed, a verify/repair error never
surfaces from the iteration. -/
theorem c6_loop_never_returns :
    ∀ (env : Env) (cfg : Serve) (s : CrawlState) (fuel fuelInner : Nat),
      (∃ s', run_loop env cfg fuelInner fuel s = .running s') ∧
      (∀ s1 e ev, Crawler.grab_headers env cfg s = (s1, some e, ev) →
        Crawler.iterate env cfg s = (s1, some e, ev)) ∧
      (∀ s1 s2 e ev1 ev2,
        Crawler.grab_headers env cfg s = (s1, none, ev1) →
        Crawler.grab_para_headers env cfg s1 = (s2, some e, ev2) →
        Crawler.iterate env cfg s = (s2, some e, ev1 ++ ev2)) ∧
      (∀ s1 s2 s3 e ev1 ev2 ev3,
        Crawler.grab_headers env cfg s = (s1, none, ev1) →
        Crawler.grab_para_headers env cfg s1 = (s2, none, ev2) →
        Crawler.grab_storage_changes env cfg s2 = (s3, some e, ev3) →
        Crawler.iterate env cfg s = (s3, some e, ev1 ++ ev2 ++ ev3)) ∧
      (∀ s1 s2 s3 ev1 ev2 ev3,
        Crawler.grab_headers env cfg s = (s1, none, ev1) →
        Crawler.grab_para_headers env cfg s1 = (s2, none, ev2) →
        Crawler.grab_storage_changes env cfg s2 = (s3, none, ev3) →
        (Crawler.iterate env cfg s).2.1 = none) := by
  intro env cfg s fuel fuelInner
  refine ⟨?_, fun s1 e ev h => ?_, fun s1 s2 e ev1 ev2 h1 h2 => ?_,
    fun s1 s2 s3 e ev1 ev2 ev3 h1 h2 h3 => ?_, fun s1 s2 s3 ev1 ev2 ev3 h1 h2 h3 => ?_⟩
  · induction fuel generalizing s with
    | zero => exact ⟨s, rfl⟩
    | succ n ih => exact ih (run_iteration env cfg fuelInner s)
  · simp [Crawler.iterate, h]
  · simp [Crawler.iterate, h1, h2]
  · simp [Crawler.iterate, h1, h2, h3]
  · rcases h4 : Crawler.continue_check_headers env cfg s3.db s3.meta with ⟨⟨db', meta'⟩, r, ev4⟩
    simp [Crawler.iterate, h1, h2, h3, h4]

/-- C6 witness: with the relay RPC down the loop keeps running (the failed
iteration is logged and retried), and the failed first stage ends the
iteration with the connectivity error. -/
theorem c6_loop_witness :
    (∃ s', run_loop envBad cfgOn 1 2 stA = .running s') ∧
      Crawler.iterate envBad cfgOn stA = (stA, some "Failed to get finalized head", []) :=
  ⟨(c6_loop_never_returns envBad cfgOn stA 2 1).1,
    (c6_loop_never_returns envBad cfgOn stA 2 1).2.1 stA "Failed to get finalized head" []
      rfl⟩

/-! ## C5 -/

/-- The relay verify stage either leaves the metadata unchanged or sets
`checked.header` to the window end, the latter only with a successful verify
pass in evidence. -/
lemma relay_stage_cases (env : Env) (cfg : Serve) (db : CacheDB) (meta : Metadata) :
    (Crawler.relay_check_stage env cfg db meta).1.2 = meta ∨
      ((Crawler.relay_check_stage env cfg db meta).1.2 =
          { meta with checked :=
              { meta.checked with header := some (Crawler.relayWindow cfg meta).2 } } ∧
        ∃ db2 resp ev,
          check_and_fix_headers env cfg db "relay" (Crawler.relayWindow cfg meta).1
              (some (Crawler.relayWindow cfg meta).2) none = (db2, .ok resp, ev)) := by
  simp only [Crawler.relay_check_stage]
  split
  · split
    next db' e ev heq => exact Or.inl rfl
    next db' resp ev heq =>
      split
      · exact Or.inr ⟨rfl, db', resp, ev, heq⟩
      · exact Or.inr ⟨rfl, db', resp, ev, heq⟩
  · exact Or.inl rfl

/-- Para-stream analogue of `relay_stage_cases`. -/
lemma para_stage_cases (env : Env) (cfg : Serve) (db : CacheDB) (meta : Metadata) :
    (Crawler.para_check_stage env cfg db meta).1.2 = meta ∨
      ((Crawler.para_check_stage env cfg db meta).1.2 =
          { meta with checked :=
              { meta.checked with para_header := some (Crawler.paraWindow cfg meta).2 } } ∧
        ∃ db2 resp ev,
          check_and_fix_headers env cfg db "para" (Crawler.paraWindow cfg meta).1
              (some (Crawler.paraWindow cfg meta).2) none = (db2, .ok resp, ev)) := by
  simp only [Crawler.para_check_stage]
  split
  · split
    next db' e ev heq => exact Or.inl rfl
    next db' resp ev heq =>
      split
      · exact Or.inr ⟨rfl, db', resp, ev, heq⟩
      · exact Or.inr ⟨rfl, db', resp, ev, heq⟩
  · exact Or.inl rfl

/-- `continue_check_headers` is the relay stage, then — only if it did not
fail — the para stage on the relay stage's output. -/
lemma continue_check_decomp (env : Env) (cfg : Serve) (db : CacheDB) (meta : Metadata) :
    (∃ db1 m1 e ev1,
        Crawler.relay_check_stage env cfg db meta = ((db1, m1), some e, ev1) ∧
          Crawler.continue_check_headers env cfg db meta = ((db1, m1), some e, ev1)) ∨
      (∃ db1 m1 ev1 db2 m2 r2 ev2,
        Crawler.relay_check_stage env cfg db meta = ((db1, m1), none, ev1) ∧
          Crawler.para_check_stage env cfg db1 m1 = ((db2, m2), r2, ev2) ∧
          Crawler.continue_check_headers env cfg db meta = ((db2, m2), r2, ev1 ++ ev2)) := by
  rcases h1 : Crawler.relay_check_stage env cfg db meta with ⟨⟨db1, m1⟩, r1, ev1⟩
  cases r1 with
  | some e =>
    refine Or.inl ⟨db1, m1, e, ev1, rfl, ?_⟩
    simp [Crawler.continue_check_headers, h1]
  | none =>
    rcases h2 : Crawler.para_check_stage env cfg db1 m1 with ⟨⟨db2, m2⟩, r2, ev2⟩
    refine Or.inr ⟨db1, m1, ev1, db2, m2, r2, ev2, rfl, h2, ?_⟩
    simp [Crawler.continue_check_headers, h1, h2]

/-- C5: the verify windows are bounded by `check_batch` and by
`recent_imported`; a continuous verify tick changes each stream's `checked`
cursor only to the respective window end, touches neither `recent_imported`
nor `higest`, advances a `checked` cursor only when the corresponding
`check_and_fix_headers` pass returned success, and preserves the
`checked ≤ recent_imported` invariant. -/
theorem c5_bounded_verify_window :
    ∀ (env : Env) (cfg : Serve) (db : CacheDB) (meta : Metadata),
      ((Crawler.relayWindow cfg meta).2 ≤ meta.recent_imported.header.getD 0 ∧
        (Crawler.relayWindow cfg meta).2 - (Crawler.relayWindow cfg meta).1 ≤ cfg.check_batch) ∧
      ((Crawler.paraWindow cfg meta).2 ≤ meta.recent_imported.para_header.getD 0 ∧
        (Crawler.paraWindow cfg meta).2 - (Crawler.paraWindow cfg meta).1 ≤ cfg.check_batch) ∧
      (∀ (db' : CacheDB) (m' : Metadata) (r : Option String) (ev : List Event),
        Crawler.continue_check_headers env cfg db meta = ((db', m'), r, ev) →
        (m'.checked.header = meta.checked.header ∨
            m'.checked.header = some (Crawler.relayWindow cfg meta).2) ∧
          (m'.checked.para_header = meta.checked.para_header ∨
            m'.checked.para_header = some (Crawler.paraWindow cfg meta).2) ∧
          m'.recent_imported = meta.recent_imported ∧
          m'.higest = meta.higest ∧
          (m'.checked.header ≠ meta.checked.header →
            ∃ db2 resp ev2,
              check_and_fix_headers env cfg db "relay" (Crawler.relayWindow cfg meta).1
                  (some (Crawler.relayWindow cfg meta).2) none = (db2, .ok resp, ev2)) ∧
          (m'.checked.para_header ≠ meta.checked.para_header →
            ∃ db1 db2 resp ev2,
              check_and_fix_headers env cfg db1 "para" (Crawler.paraWindow cfg meta).1
                  (some (Crawler.paraWindow cfg meta).2) none = (db2, .ok resp, ev2)) ∧
          ((∀ c, meta.checked.header = some c → c ≤ meta.recent_imported.header.getD 0) →
            ∀ c, m'.checked.header = some c → c ≤ m'.recent_imported.header.getD 0) ∧
          ((∀ c, meta.checked.para_header = some c →
              c ≤ meta.recent_imported.para_header.getD 0) →
            ∀ c, m'.checked.para_header = some c →
              c ≤ m'.recent_imported.para_header.getD 0)) := by
  intro env cfg db meta
  refine ⟨⟨?_, ?_⟩, ⟨?_, ?_⟩, ?_⟩
  · simp only [Crawler.relayWindow]
    omega
  · simp only [Crawler.relayWindow]
    omega
  · simp only [Crawler.paraWindow]
    omega
  · simp only [Crawler.paraWindow]
    omega
  intro db' m' r ev heq
  have hRE : (Crawler.relayWindow cfg meta).2 ≤ meta.recent_imported.header.getD 0 := by
    simp only [Crawler.relayWindow]
    omega
  have hPE : (Crawler.paraWindow cfg meta).2 ≤ meta.recent_imported.para_header.getD 0 := by
    simp only [Crawler.paraWindow]
    omega
  rcases continue_check_decomp env cfg db meta with
      ⟨db1, m1, e, ev1, hrel, hcc⟩ | ⟨db1, m1, ev1, db2, m2, r2, ev2, hrel, hpara, hcc⟩
  · have hm : m1 = m' := congrArg (fun x => x.1.2) (hcc.symm.trans heq)
    subst hm
    rcases relay_stage_cases env cfg db meta with hL | ⟨hR, hEvi⟩
    · rw [hrel] at hL
      have hm1 : meta = m1 := hL.symm
      subst hm1
      exact ⟨Or.inl rfl, Or.inl rfl, rfl, rfl, fun h => absurd rfl h, fun h => absurd rfl h,
        fun h => h, fun h => h⟩
    · rw [hrel] at hR
      have hm1 : m1 =
          { meta with checked :=
              { meta.checked with header := some (Crawler.relayWindow cfg meta).2 } } := hR
      subst hm1
      refine ⟨Or.inr rfl, Or.inl rfl, rfl, rfl, fun _ => hEvi, fun h => absurd rfl h, ?_, ?_⟩
      · intro _ c hc
        have h2 : (Crawler.relayWindow cfg meta).2 = c := by
          simpa using hc
        exact h2 ▸ hRE
      · exact fun h => h
  · have hm : m2 = m' := congrArg (fun x => x.1.2) (hcc.symm.trans heq)
    subst hm
    have hmem1 : (Crawler.relay_check_stage env cfg db meta).1.2 = m1 := by
      rw [hrel]
    rcases relay_stage_cases env cfg db meta with hL | ⟨hR, hEvi⟩
    · -- relay stage left metadata unchanged: m1 = meta
      have hm1 : meta = m1 := (hmem1.symm.trans hL).symm
      subst hm1
      rcases para_stage_cases env cfg db1 meta with pL | ⟨pR, pEvi⟩
      · rw [hpara] at pL
        have hm2 : meta = m2 := pL.symm
        subst hm2
        exact ⟨Or.inl rfl, Or.inl rfl, rfl, rfl, fun h => absurd rfl h, fun h => absurd rfl h,
          fun h => h, fun h => h⟩
      · rw [hpara] at pR
        have hm2 : m2 =
            { meta with checked :=
                { meta.checked with para_header := some (Crawler.paraWindow cfg meta).2 } } := pR
        subst hm2
        refine ⟨Or.inl rfl, Or.inr rfl, rfl, rfl, fun h => absurd rfl h,
          fun _ => ⟨db1, pEvi⟩, fun h => h, ?_⟩
        intro _ c hc
        have h2 : (Crawler.paraWindow cfg meta).2 = c := by
          simpa using hc
        exact h2 ▸ hPE
    · -- relay stage advanced: m1 is the header update of meta
      have hm1 : m1 =
          { meta with checked :=
              { meta.checked with header := some (Crawler.relayWindow cfg meta).2 } } :=
        hmem1.symm.trans hR
      subst hm1
      rcases para_stage_cases env cfg db1
          { meta with checked :=
              { meta.checked with header := some (Crawler.relayWindow cfg meta).2 } } with
        pL | ⟨pR, pEvi⟩
      · rw [hpara] at pL
        have hm2 : m2 =
            { meta with checked :=
                { meta.checked with header := some (Crawler.relayWindow cfg meta).2 } } :=
          pL
        subst hm2
        refine ⟨Or.inr rfl, Or.inl rfl, rfl, rfl, fun _ => hEvi, fun h => absurd rfl h, ?_, ?_⟩
        · intro _ c hc
          have h2 : (Crawler.relayWindow cfg meta).2 = c := by
            simpa using hc
          exact h2 ▸ hRE
        · exact fun h => h
      · rw [hpara] at pR
        have hm2 : m2 =
            { meta with checked :=
                { header := some (Crawler.relayWindow cfg meta).2
                  para_header :=
                    some (Crawler.paraWindow cfg
                      { meta with checked :=
                          { meta.checked with
                              header := some (Crawler.relayWindow cfg meta).2 } }).2
                  storage_changes := meta.checked.storage_changes } } := pR
        subst hm2
        refine ⟨Or.inr rfl, Or.inr ?_, rfl, rfl, fun _ => hEvi, fun _ => ⟨db1, ?_⟩, ?_, ?_⟩
        · exact rfl
        · exact pEvi
        · intro _ c hc
          have h2 : (Crawler.relayWindow cfg meta).2 = c := by
            simpa using hc
          exact h2 ▸ hRE
        · intro _ c hc
          have h2 : (Crawler.paraWindow cfg meta).2 = c := by
            simpa using hc
          exact h2 ▸ hPE

/-- C5 witness: on fresh metadata the relay window is empty, bounded by
`recent_imported`, and the tick leaves `checked` unchanged. -/
theorem c5_window_witness :
    (Crawler.relayWindow cfgOn Metadata.init).2 ≤
        Metadata.init.recent_imported.header.getD 0 ∧
      (Metadata.init.checked.header = Metadata.init.checked.header ∨
        Metadata.init.checked.header = some (Crawler.relayWindow cfgOn Metadata.init).2) :=
  ⟨(c5_bounded_verify_window envA cfgOn dbA Metadata.init).1.1,
    ((c5_bounded_verify_window envA cfgOn dbA Metadata.init).2.2 dbA Metadata.init
        none [] rfl).1⟩

/-! ## C1 -/

/-- C1: when the decoded header at block `B` has a `parent_hash` differing
from the hash of the header at `B - 1`, the verify step re-fetches both
`B - 1` and `B` from the live chain exactly once each (the fetch trace is
exactly those two single-block requests), overwrites both store entries with
the fetched encodings, compares once more, and fails with "Cannot fix
mismatch at B" when the hashes still differ; and a failing relay verify pass
makes `continue_check_headers` propagate the error with `metadata.checked`
not advanced, so the same window is retried on the next tick. -/
theorem c1_unrepairable_mismatch :
    ∀ (env : Env) (cfg : Serve) (db : CacheDB) (prev cur : Header) (B mm ce : Nat)
      (bytes : Bytes) (infoP infoC : BlockInfo),
      db.headers B = some bytes →
      decode_header bytes = .ok cur →
      prev.number = B - 1 →
      cur.number = B →
      prev.hash ≠ cur.parentHash →
      cfg.grab_headers = true →
      env.connectOk = true →
      env.paraConnectOk = true →
      env.faults.headerOk = true →
      env.relayChain (B - 1) = some infoP →
      env.relayChain B = some infoC →
      infoP.header.number = B - 1 →
      infoC.header.number = B →
      infoP.header.hash ≠ infoC.header.parentHash →
      (cafStep env cfg "relay" B (db, prev, mm, ce) =
        ((putHeaderB (putHeaderB db (B - 1) (encodeInfo infoP)) B (encodeInfo infoC),
          infoP.header, mm + 1, ce),
          some ("Cannot fix mismatch at " ++ toString B),
          [.fetchHeaders (B - 1) 1, .fetchHeaders B 1])) ∧
      (∀ (db0 db1 : CacheDB) (meta : Metadata) (e : String) (ev : List Event),
        (Crawler.relayWindow cfg meta).1 < (Crawler.relayWindow cfg meta).2 →
        check_and_fix_headers env cfg db0 "relay" (Crawler.relayWindow cfg meta).1
            (some (Crawler.relayWindow cfg meta).2) none = (db1, .error e, ev) →
        Crawler.continue_check_headers env cfg db0 meta = ((db1, meta), some e, ev)) := by
  intro env cfg db prev cur B mm ce bytes infoP infoC
  intro hdb hdec hprevn hcurn hne hgrab hconn hpconn hput hchainP hchainC hPn hCn hne2
  constructor
  · simp only [cafStep, hdb, hdec, relayLink, hne, if_neg hne]
    rw [hprevn, hcurn]
    simp [regrab_header, hgrab, hconn, hpconn, hput, grabLoopExternal, hchainP, hchainC,
      hPn, hCn, hne2]
  · intro db0 db1 meta e ev hlt hfix
    have hstage : Crawler.relay_check_stage env cfg db0 meta = ((db1, meta), some e, ev) := by
      simp only [Crawler.relay_check_stage]
      rw [if_pos hlt, hfix]
    simp only [Crawler.continue_check_headers]
    rw [hstage]

/-- C1 witness: the concrete two-block fork of `envC1`/`dbC1`: the step at
block 1 fetches 0 and 1 once each, overwrites both entries, and fails; the
scheduler tick propagates the error leaving `checked` at 0. -/
theorem c1_mismatch_witness :
    (cafStep envC1 cfgOn "relay" 1 (dbC1, ⟨0, 0, 0⟩, 0, 0) =
      ((putHeaderB (putHeaderB dbC1 0 (encodeInfo ⟨hdrP, false⟩)) 1 (encodeInfo ⟨hdrC, false⟩),
        hdrP, 1, 0),
        some ("Cannot fix mismatch at " ++ toString 1),
        [.fetchHeaders 0 1, .fetchHeaders 1 1])) ∧
    Crawler.continue_check_headers envC1 cfgOn dbC1 metaC1 =
      ((putHeaderB (putHeaderB dbC1 0 (encodeInfo ⟨hdrP, false⟩)) 1 (encodeInfo ⟨hdrC, false⟩),
        metaC1),
        some ("Cannot fix mismatch at " ++ toString 1),
        [.fetchHeaders 0 1, .fetchHeaders 1 1]) := by
  have h := c1_unrepairable_mismatch envC1 cfgOn dbC1 ⟨0, 0, 0⟩ ⟨1, 999, 0⟩ 1 0 0
    (Bytes.good ⟨1, 999, 0⟩) ⟨hdrP, false⟩ ⟨hdrC, false⟩
    rfl rfl rfl rfl (by decide) rfl rfl rfl rfl rfl rfl rfl rfl (by decide)
  refine ⟨h.1, h.2 dbC1
    (putHeaderB (putHeaderB dbC1 0 (encodeInfo ⟨hdrP, false⟩)) 1 (encodeInfo ⟨hdrC, false⟩))
    metaC1 ("Cannot fix mismatch at " ++ toString 1)
    [.fetchHeaders 0 1, .fetchHeaders 1 1] (by decide) ?_⟩
  rfl

/-! ## C2 -/

/-- Store lookup after a header put. -/
lemma putHeaderB_headers (db : CacheDB) (n : BlockNumber) (b : Bytes) (k : BlockNumber) :
    (putHeaderB db n b).headers k = if k = n then some b else db.headers k := rfl

/-- A verify step over an intact, correctly linked record passes through
unchanged. -/
lemma cafStep_clean (env : Env) (cfg : Serve) (db : CacheDB) (g : Nat → Header)
    (b : Nat) (prev : Header) (mm ce : Nat)
    (hdb : db.headers b = some (Bytes.good (g b)))
    (hlink : prev.hash = (g b).parentHash) :
    cafStep env cfg "relay" b (db, prev, mm, ce) = ((db, g b, mm, ce), none, []) := by
  simp [cafStep, hdb, decode_header, relayLink, hlink]

/-- A verify step over a corrupt record whose single-block re-fetch returns
the correctly linked header: one codec error counted, the store entry
overwritten, one single-block fetch in the trace. -/
lemma cafStep_codec (env : Env) (cfg : Serve) (db : CacheDB) (g : Nat → Header)
    (b : Nat) (prev : Header) (mm ce i : Nat) (info : BlockInfo)
    (hdb : db.headers b = some (Bytes.bad i))
    (hgrab : cfg.grab_headers = true)
    (hconn : env.connectOk = true)
    (hpconn : env.paraConnectOk = true)
    (hput : env.faults.headerOk = true)
    (hchain : env.relayChain b = some info)
    (hinfo : info.header = g b)
    (hnum : (g b).number = b)
    (hlink : prev.hash = (g b).parentHash) :
    cafStep env cfg "relay" b (db, prev, mm, ce) =
      ((putHeaderB db b (Bytes.good (g b)), g b, mm, ce + 1), none, [.fetchHeaders b 1]) := by
  simp [cafStep, hdb, decode_header, regrab_header, hgrab, hconn, hpconn, hput,
    grabLoopExternal, hchain, hinfo, hnum, encodeInfo, relayLink, hlink]

/-- The verify loop over a span of intact, correctly linked records passes
through unchanged, advancing `prev` to the last block's header. -/
lemma cafLoop_clean (env : Env) (cfg : Serve) (db : CacheDB) (g : Nat → Header) :
    ∀ (k a mm ce : Nat),
      1 ≤ a →
      (∀ i, i < k → db.headers (a + i) = some (Bytes.good (g (a + i)))) →
      (∀ i, i < k → (g (a + i)).parentHash = (g (a + i - 1)).hash) →
      cafLoop env cfg "relay" (List.range' a k) (db, g (a - 1), mm, ce) =
        ((db, g (a + k - 1), mm, ce), none, []) := by
  intro k
  induction k with
  | zero =>
    intro a mm ce ha _ _
    simp [cafLoop]
  | succ k ih =>
    intro a mm ce ha hdb hlink
    rw [List.range'_succ]
    have hstep : cafStep env cfg "relay" a (db, g (a - 1), mm, ce) =
        ((db, g a, mm, ce), none, []) := by
      apply cafStep_clean
      · simpa using hdb 0 (Nat.succ_pos k)
      · have h := (hlink 0 (Nat.succ_pos k)).symm
        simpa using h
    have hrest := ih (a + 1) mm ce (by omega)
      (fun i hi => by
        have h := hdb (i + 1) (by omega)
        have e : a + (i + 1) = a + 1 + i := by omega
        rw [e] at h
        exact h)
      (fun i hi => by
        have h := hlink (i + 1) (by omega)
        have e : a + (i + 1) = a + 1 + i := by omega
        rw [e] at h
        exact h)
    have e1 : a + 1 - 1 = a := by omega
    have e2 : a + 1 + k - 1 = a + (k + 1) - 1 := by omega
    rw [e1, e2] at hrest
    simp only [cafLoop, hstep, hrest]
    rfl

/-- Composing the verify loop over an appended block list when the first
span succeeds. -/
lemma cafLoop_append_ok (env : Env) (cfg : Serve) (what : String) :
    ∀ (l1 l2 : List Nat) (st st' st'' : CheckSt) (ev ev' : List Event) (r : Option String),
      cafLoop env cfg what l1 st = (st', none, ev) →
      cafLoop env cfg what l2 st' = (st'', r, ev') →
      cafLoop env cfg what (l1 ++ l2) st = (st'', r, ev ++ ev') := by
  intro l1
  induction l1 with
  | nil =>
    intro l2 st st' st'' ev ev' r h1 h2
    have h1' : (st, (none : Option String), ([] : List Event)) = (st', none, ev) := h1
    injection h1' with hA hB
    injection hB with hC hD
    subst hA
    subst hD
    simpa using h2
  | cons b bs ih =>
    intro l2 st st' st'' ev ev' r h1 h2
    rcases hs : cafStep env cfg what b st with ⟨st1, r1, ev1⟩
    simp only [cafLoop, hs] at h1
    cases r1 with
    | some e => simp at h1
    | none =>
      rcases hl : cafLoop env cfg what bs st1 with ⟨st2, r2, ev2⟩
      simp only [hl] at h1
      have hA : st2 = st' := congrArg (fun x => x.1) h1
      have hB : r2 = none := congrArg (fun x => x.2.1) h1
      have hC : ev1 ++ ev2 = ev := congrArg (fun x => x.2.2) h1
      subst hA
      subst hB
      have hmain := ih l2 st1 st2 st'' ev2 ev' r hl h2
      rw [List.cons_append]
      simp only [cafLoop, hs, hmain]
      rw [← hC, List.append_assoc]

/-- C2: with exactly one undecodable record at block `B` inside an otherwise
intact, correctly linked stored span `[from, to]`, and the live chain serving
the correct header at `B`, `check_and_fix_headers` succeeds with a summary
of zero mismatches and one codec error, the only chain access is the
single-block fetch of `B` (one item requested), the store entry at `B` is
overwritten with the re-fetched encoding, and afterwards the stored headers
of the whole span decode and are mutually hash-linked. -/
theorem c2_codec_repair_convergence :
    ∀ (env : Env) (cfg : Serve) (db : CacheDB) (g : Nat → Header) (fromB toB B i : Nat)
      (info : BlockInfo),
      fromB < B → B ≤ toB →
      (∀ n, fromB ≤ n → n ≤ toB → n ≠ B → db.headers n = some (Bytes.good (g n))) →
      db.headers B = some (Bytes.bad i) →
      (∀ n, fromB ≤ n → n < toB → (g (n + 1)).parentHash = (g n).hash) →
      env.relayChain B = some info →
      info.header = g B →
      (g B).number = B →
      cfg.grab_headers = true →
      env.connectOk = true →
      env.paraConnectOk = true →
      env.faults.headerOk = true →
      check_and_fix_headers env cfg db "relay" fromB (some toB) none =
        (putHeaderB db B (Bytes.good (g B)),
          .ok ("Checked blocks from " ++ toString fromB ++ " to " ++ toString toB ++
            ", " ++ toString (0 : Nat) ++ " mismatches, " ++ toString (1 : Nat) ++
            " codec errors"),
          [.fetchHeaders B 1]) ∧
      (∀ n, fromB ≤ n → n ≤ toB →
        (putHeaderB db B (Bytes.good (g B))).headers n = some (Bytes.good (g n))) ∧
      (∀ n, fromB ≤ n → n < toB →
        (g (n + 1)).parentHash = (g n).hash) := by
  intro env cfg db g fromB toB B i info
  intro hB1 hB2 hgood hbad hchainlink hchain hinfo hnum hgrab hconn hpconn hput
  have hafter : ∀ n, fromB ≤ n → n ≤ toB →
      (putHeaderB db B (Bytes.good (g B))).headers n = some (Bytes.good (g n)) := by
    intro n h1 h2
    by_cases hn : n = B
    · subst hn
      simp [putHeaderB_headers]
    · rw [putHeaderB_headers, if_neg hn]
      exact hgood n h1 h2 hn
  refine ⟨?_, hafter, fun n h1 h2 => hchainlink n h1 h2⟩
  -- the main run
  have hd1 : List.range' (fromB + 1) (toB - fromB) =
      List.range' (fromB + 1) (B - (fromB + 1)) ++ B :: List.range' (B + 1) (toB - B) := by
    have e1 : toB - fromB = (1 + (toB - B)) + (B - (fromB + 1)) := by omega
    rw [e1, ← List.range'_append]
    have e2 : fromB + 1 + 1 * (B - (fromB + 1)) = B := by omega
    rw [e2]
    have e3 : 1 + (toB - B) = (toB - B) + 1 := by omega
    rw [e3, List.range'_succ]
  have hclean1 : cafLoop env cfg "relay" (List.range' (fromB + 1) (B - (fromB + 1)))
      (db, g fromB, 0, 0) = ((db, g (B - 1), 0, 0), none, []) := by
    have h := cafLoop_clean env cfg db g (B - (fromB + 1)) (fromB + 1) 0 0 (by omega)
      (fun j (hj : j < B - (fromB + 1)) => by
        have h1 : fromB ≤ fromB + 1 + j := by omega
        have h2 : fromB + 1 + j ≤ toB := by omega
        have h3 : fromB + 1 + j ≠ B := by omega
        exact hgood _ h1 h2 h3)
      (fun j hj => by
        have h := hchainlink (fromB + j) (by omega) (by omega)
        have e : fromB + j + 1 = fromB + 1 + j := by omega
        rw [e] at h
        have e' : fromB + 1 + j - 1 = fromB + j := by omega
        rw [e']
        exact h)
    have e1 : fromB + 1 - 1 = fromB := by omega
    have e2 : fromB + 1 + (B - (fromB + 1)) - 1 = B - 1 := by omega
    rw [e1, e2] at h
    exact h
  have hstepB : cafStep env cfg "relay" B (db, g (B - 1), 0, 0) =
      ((putHeaderB db B (Bytes.good (g B)), g B, 0, 0 + 1), none, [.fetchHeaders B 1]) := by
    apply cafStep_codec env cfg db g B (g (B - 1)) 0 0 i info hbad hgrab hconn hpconn hput
      hchain hinfo hnum
    have h := hchainlink (B - 1) (by omega) (by omega)
    have e : B - 1 + 1 = B := by omega
    rw [e] at h
    exact h.symm
  have hclean2 : cafLoop env cfg "relay" (List.range' (B + 1) (toB - B))
      (putHeaderB db B (Bytes.good (g B)), g B, 0, 1) =
      ((putHeaderB db B (Bytes.good (g B)), g toB, 0, 1), none, []) := by
    have h := cafLoop_clean env cfg (putHeaderB db B (Bytes.good (g B))) g (toB - B) (B + 1)
      0 1 (by omega)
      (fun j (hj : j < toB - B) => by
        have h1 : fromB ≤ B + 1 + j := by omega
        have h2 : B + 1 + j ≤ toB := by omega
        have h3 : B + 1 + j ≠ B := by omega
        rw [putHeaderB_headers, if_neg h3]
        exact hgood _ h1 h2 h3)
      (fun j hj => by
        have h := hchainlink (B + j) (by omega) (by omega)
        have e : B + j + 1 = B + 1 + j := by omega
        rw [e] at h
        have e' : B + 1 + j - 1 = B + j := by omega
        rw [e']
        exact h)
    have e1 : B + 1 - 1 = B := by omega
    have e2 : B + 1 + (toB - B) - 1 = toB := by omega
    rw [e1, e2] at h
    exact h
  have hmid : cafLoop env cfg "relay" (B :: List.range' (B + 1) (toB - B))
      (db, g (B - 1), 0, 0) =
      ((putHeaderB db B (Bytes.good (g B)), g toB, 0, 1), none, [.fetchHeaders B 1]) := by
    simp only [cafLoop, hstepB, hclean2]
    rfl
  have hloop : cafLoop env cfg "relay" (List.range' (fromB + 1) (toB - fromB))
      (db, g fromB, 0, 0) =
      ((putHeaderB db B (Bytes.good (g B)), g toB, 0, 1), none, [.fetchHeaders B 1]) := by
    rw [hd1]
    have h := cafLoop_append_ok env cfg "relay"
      (List.range' (fromB + 1) (B - (fromB + 1))) (B :: List.range' (B + 1) (toB - B))
      (db, g fromB, 0, 0) (db, g (B - 1), 0, 0)
      (putHeaderB db B (Bytes.good (g B)), g toB, 0, 1)
      [] [.fetchHeaders B 1] none hclean1 hmid
    simpa using h
  have hfromdb : db.headers fromB = some (Bytes.good (g fromB)) :=
    hgood fromB (by omega) (by omega) (by omega)
  simp [check_and_fix_headers, show ¬ toB ≤ fromB by omega, hfromdb, decode_header]
  simp at hloop
  rw [hloop]
  simp

/-- C2 witness: blocks 0 through 2 with record 1 corrupt and re-fetchable:
the verify pass succeeds with one codec error, no mismatches, a single
single-block fetch, and the span is intact afterwards. -/
theorem c2_repair_witness :
    check_and_fix_headers envC2 cfgOn dbC2 "relay" 0 (some 2) none =
      (putHeaderB dbC2 1 (Bytes.good (chainW 1)),
        .ok ("Checked blocks from " ++ toString 0 ++ " to " ++ toString 2 ++ ", " ++
          toString (0 : Nat) ++ " mismatches, " ++ toString (1 : Nat) ++ " codec errors"),
        [.fetchHeaders 1 1]) ∧
    (putHeaderB dbC2 1 (Bytes.good (chainW 1))).headers 2 = some (Bytes.good (chainW 2)) := by
  have hgood : ∀ n, 0 ≤ n → n ≤ 2 → n ≠ 1 → dbC2.headers n = some (Bytes.good (chainW n)) := by
    intro n _ h2 h3
    interval_cases n
    · rfl
    · exact absurd rfl h3
    · rfl
  have hlink : ∀ n, 0 ≤ n → n < 2 → (chainW (n + 1)).parentHash = (chainW n).hash := by
    intro n _ h2
    interval_cases n
    · rfl
    · rfl
  have h := c2_codec_repair_convergence envC2 cfgOn dbC2 chainW 0 2 1 5 ⟨chainW 1, false⟩
    (by decide) (by decide) hgood rfl hlink rfl rfl rfl rfl rfl rfl rfl
  exact ⟨h.1, h.2.1 2 (by decide) (by decide)⟩

end HeadersCache
